import Mathlib

/-!
Verification development for `easy_sqs.py`, a CLI utility that sends one or
more messages to an AWS SQS queue.  The Python source is shallowly embedded:

* Python `dict`s become insertion-ordered association lists (`PyDict`);
* the external oracles (`random.randint(1, 100)`, `uuid.uuid4()`, the file
  system, `configparser`, `json.load`, and the SQS client) become explicit
  inputs: a number `r`, a stream `uuids : Nat → String`, and `Env` fields;
* a raised Python exception becomes `none` / an exit with code 1; the SQS
  `send_message` calls become a trace of `SendCall` records.
-/

namespace EasySQS

/-- The recognized settings keys (`list_of_params` in `easy_sqs.py`). -/
def list_of_params : List String :=
  ["queue_url", "aws_profile", "message_body", "message_attributes",
   "s3_bucket", "fifo_test", "fifo_num_of_messages"]

/-- A Python `dict` with string keys, as an insertion-ordered association list
(no duplicate keys arise in this development's uses). -/
abbrev PyDict (α : Type) := List (String × α)

/-- Python `d[k] = v`: overwrite the stored value when the key is present,
append the new pair otherwise. -/
def pydictSet {α : Type} (d : PyDict α) (k : String) (v : α) : PyDict α :=
  if d.any (fun kv => kv.1 = k) then
    d.map (fun kv => if kv.1 = k then (k, v) else kv)
  else d ++ [(k, v)]

/-- Lookup of the stored value: `some` when the key is present. -/
def pydictGet {α : Type} : PyDict α → String → Option α
  | [], _ => none
  | kv :: rest, k => if kv.1 = k then some kv.2 else pydictGet rest k

/-- The parameters dict: each recognized key maps to a Python value that is
either a string or `None` (modelled as `Option String`). -/
abbrev Params := PyDict (Option String)

/-- Python `params.get(k)`: `None` both when the key is absent and when the
stored value is `None`. -/
def paramsGet (params : Params) (k : String) : Option String :=
  (pydictGet params k).join

/-- ASCII decimal digit test. -/
def isAsciiDigit (c : Char) : Bool := '0' ≤ c && c ≤ '9'

/-- Numeric value of an ASCII digit. -/
def digitVal (c : Char) : Nat := c.toNat - '0'.toNat

/-- Value of a list of ASCII digits read in base 10. -/
def digitsVal (cs : List Char) : Nat :=
  cs.foldl (fun acc c => 10 * acc + digitVal c) 0

/-- Validity of the character list following the first digit of a Python
integer literal: digits, with single underscores allowed between digits. -/
def goDigits : List Char → Bool
  | [] => true
  | c :: rest =>
    if c = '_' then
      match rest with
      | [] => false
      | c2 :: rest2 => isAsciiDigit c2 && goDigits rest2
    else isAsciiDigit c && goDigits rest

/-- Validity of the digit part of a Python integer literal: nonempty, starts
with a digit, underscores only between digits. -/
def digitsOk : List Char → Bool
  | [] => false
  | c :: rest => isAsciiDigit c && goDigits rest

/-- Helper for `pythonInt`: optional sign, then a valid digit part. -/
def pythonIntCore (cs : List Char) : Option Int :=
  match cs with
  | '+' :: rest =>
    if digitsOk rest then some (Int.ofNat (digitsVal (rest.filter (fun c => c ≠ '_'))))
    else none
  | '-' :: rest =>
    if digitsOk rest then some (-(Int.ofNat (digitsVal (rest.filter (fun c => c ≠ '_')))))
    else none
  | _ =>
    if digitsOk cs then some (Int.ofNat (digitsVal (cs.filter (fun c => c ≠ '_'))))
    else none

/-- Whitespace characters Python strips around an integer literal
(space, tab, newline, carriage return, vertical tab, form feed). -/
def isPySpace (c : Char) : Bool :=
  c = ' ' || c = '\t' || c = '\n' || c = '\r' || c = Char.ofNat 11 || c = Char.ofNat 12

/-- Strip leading and trailing whitespace from a character list. -/
def pyStrip (cs : List Char) : List Char :=
  ((cs.dropWhile isPySpace).reverse.dropWhile isPySpace).reverse

/-- Python `int(s)` on a string: surrounding whitespace stripped, optional
sign, ASCII digits with single underscores between digits; `none` models the
`ValueError` raised on any other input. -/
def pythonInt (s : String) : Option Int := pythonIntCore (pyStrip s.toList)

/-- Python `s.endswith(t)`: `t` is a suffix of `s`, decided on the character
sequences (equivalent to `String.endsWith`, but phrased over `String.data` so
that symbolic reasoning and kernel evaluation stay small). -/
def pyEndsWith (s t : String) : Bool := t.data.isSuffixOf s.data

/-- A message attribute value: the DataType/StringValue
descriptor from the attributes JSON file. -/
structure AttrVal where
  dataType : String
  stringValue : String
deriving DecidableEq, Repr

/-- The message attributes dict loaded from the JSON file. -/
abbrev Attrs := PyDict AttrVal

/-- One `sqs_extended_client.send_message(...)` call: the keyword arguments
the dispatcher passes (dedup id and group id are `none` when omitted). -/
structure SendCall where
  queueUrl : String
  messageBody : String
  messageAttributes : Attrs
  messageDeduplicationId : Option String
  messageGroupId : Option String
deriving DecidableEq, Repr

/-- The expression `"msg-group-" + str(random.randint(1, 100))` applied to
the oracle outcome `r` of `random.randint(1, 100)`. -/
def message_group_id (r : Nat) : String := "msg-group-" ++ Nat.repr r

/-- Embedding of `num_of_iterations` in `send_message_to_sqs` (lines 69-72):
1 unless the
`fifo_test` value is the string `"true"`, in which case
`int(params.get('fifo_num_of_messages', 1))`.  `none` models the exception
from `int`: a `TypeError` when the stored value is Python `None`, a
`ValueError` when the string does not parse.  The dict-get default `1` fires
only when the key is absent from the dict altogether. -/
def num_of_iterations (params : Params) : Option Int :=
  if paramsGet params "fifo_test" = some "true" then
    match pydictGet params "fifo_num_of_messages" with
    | some (some s) => pythonInt s
    | some none => none
    | none => some 1
  else some 1

/-- The send loop of `send_message_to_sqs` (lines 73-84) over the remaining
iteration indices.  Each iteration stamps `messageNum` into the shared
attributes dict in place, then sends: with dedup id and group id when the
queue url ends in `".fifo"`, without them otherwise.  `none` models the
`AttributeError` raised by `queue_url.endswith` when `queue_url` is Python
`None`; it occurs on the first iteration, before any send. -/
def sendLoop (queue_url : Option String) (gid : String) (body : String)
    (uuids : Nat → String) : Attrs → List Nat → Option (List SendCall)
  | _, [] => some []
  | attrs, n :: rest =>
    let attrs2 := pydictSet attrs "messageNum" ⟨"String", Nat.repr (n + 1)⟩
    match queue_url with
    | none => none
    | some q =>
      let call : SendCall :=
        if pyEndsWith q ".fifo" then
          ⟨q, body, attrs2, some (uuids n), some gid⟩
        else ⟨q, body, attrs2, none, none⟩
      (sendLoop queue_url gid body uuids attrs2 rest).map (fun cs => call :: cs)

/-- Embedding of `send_message_to_sqs` (lines 60-84), with the two random
oracles made
explicit: `r` is the `random.randint(1, 100)` outcome and `uuids n` the
string form of the `uuid.uuid4()` drawn on iteration `n`.  The result is the
trace of send calls, or `none` when an exception is raised (every raising
point precedes the first send, so `none` implies no send was made). -/
def send_message_to_sqs (params : Params) (message_body : String)
    (message_attributes : Attrs) (r : Nat) (uuids : Nat → String) :
    Option (List SendCall) :=
  let queue_url := paramsGet params "queue_url"
  match num_of_iterations params with
  | none => none
  | some n =>
    sendLoop queue_url (message_group_id r) message_body uuids
      message_attributes (List.range n.toNat)

/-- The command-line arguments after `parse_arguments`: the required
properties path, the section name (default `"DEFAULT"`), and, for each
recognized settings key, the optional override value (`argparse` stores
`None` when the flag was not supplied, so `overrides` is the
`getattr(args, param, None)` view). -/
structure Args where
  properties : String
  properties_section : String
  overrides : String → Option String

/-- The external world: the file system (`none` models a file that cannot be
opened or read), the `configparser` semantics on a file's text (`none` models
a parse failure; a parsed config maps section and key to an optional value,
matching `config.get(section, param, fallback=None)`), the `json.load`
semantics (`none` models `JSONDecodeError`), and the two random oracles used
by the dispatcher. -/
structure Env where
  fs : String → Option String
  parseProps : String → Option (String → String → Option String)
  parseJson : String → Option Attrs
  r : Nat
  uuids : Nat → String

/-- Embedding of `load_parameters_from_properties` (lines 118-135): read the
file, parse
it, and build the params dict with one entry per recognized key, using
`fallback=None` for keys absent from the section.  `none` models the
`except Exception` branch that logs and calls `sys.exit(1)`. -/
def load_parameters_from_properties (env : Env) (file_path : String)
    (sect : String) : Option Params :=
  match env.fs file_path with
  | none => none
  | some content =>
    match env.parseProps content with
    | none => none
    | some cfg => some (list_of_params.map (fun p => (p, cfg sect p)))

/-- Embedding of `override_parameters_with_args` (lines 137-150): for each
recognized key,
when the command line supplied a value, store it into the params dict. -/
def override_parameters_with_args (params : Params)
    (overrides : String → Option String) : Params :=
  list_of_params.foldl
    (fun d p =>
      match overrides p with
      | some v => pydictSet d p (some v)
      | none => d)
    params

/-- Embedding of `load_message_body` (lines 87-99) applied to the resolved
`params['message_body']` value: `none` on a Python `None` path (the
`TypeError` from `open` escapes to `main`) and on a missing file
(`FileNotFoundError`, `sys.exit(1)`); otherwise the file's verbatim text. -/
def load_message_body (env : Env) (path : Option String) : Option String :=
  match path with
  | none => none
  | some p => env.fs p

/-- Embedding of `load_message_attributes` (lines 101-116): as
`load_message_body`, plus
`json.load`; `none` also models malformed JSON (`JSONDecodeError`,
`sys.exit(1)`). -/
def load_message_attributes (env : Env) (path : Option String) : Option Attrs :=
  match path with
  | none => none
  | some p =>
    match env.fs p with
    | none => none
    | some content => env.parseJson content

/-- The resolved settings record `main` builds: file-sourced parameters with
command-line overrides applied. -/
def resolvedParams (env : Env) (args : Args) : Option Params :=
  (load_parameters_from_properties env args.properties args.properties_section).map
    (fun p0 => override_parameters_with_args p0 args.overrides)

/-- Embedding of `main` (lines 164-185): resolve parameters, load body and
attributes,
dispatch.  The result is the process exit code paired with the trace of send
calls; every failure path (each one reached before any send) yields
`(1, [])` and success yields `(0, calls)`. -/
def mainRun (env : Env) (args : Args) : Nat × List SendCall :=
  match resolvedParams env args with
  | none => (1, [])
  | some params =>
    match load_message_body env (paramsGet params "message_body") with
    | none => (1, [])
    | some message_body =>
      match load_message_attributes env (paramsGet params "message_attributes") with
      | none => (1, [])
      | some message_attributes =>
        match send_message_to_sqs params message_body message_attributes
            env.r env.uuids with
        | none => (1, [])
        | some calls => (0, calls)

/-! ### Dictionary lemmas -/

theorem pydictSet_cons_ne {α : Type} (k' : String) (v' : α) (d : PyDict α)
    (k : String) (v : α) (h : ¬ k' = k) :
    pydictSet ((k', v') :: d) k v = (k', v') :: pydictSet d k v := by
  unfold pydictSet
  simp only [List.any_cons, decide_eq_true_eq, h, decide_False, Bool.false_or]
  by_cases hd : d.any (fun kv => kv.1 = k) = true
  · simp [hd, h]
  · simp [hd, h]

theorem pydictGet_set_self {α : Type} (d : PyDict α) (k : String) (v : α) :
    pydictGet (pydictSet d k v) k = some v := by
  induction d with
  | nil => simp [pydictSet, pydictGet]
  | cons kv rest ih =>
    obtain ⟨k', v'⟩ := kv
    by_cases h : k' = k
    · subst h
      simp [pydictSet, pydictGet]
    · rw [pydictSet_cons_ne _ _ _ _ _ h]
      simp [pydictGet, h, ih]

theorem pydictGet_map_setfn {α : Type} (d : PyDict α) (k k' : String) (v : α)
    (h : ¬ k = k') :
    pydictGet (d.map (fun kv => if kv.1 = k then (k, v) else kv)) k'
      = pydictGet d k' := by
  induction d with
  | nil => simp [pydictGet]
  | cons kv rest ih =>
    obtain ⟨k0, v0⟩ := kv
    by_cases h0 : k0 = k
    · subst h0
      simp [pydictGet, h, ih]
    · have h2 : ¬ k' = k := fun hh => h hh.symm
      by_cases h1 : k0 = k'
      · simp [pydictGet, h0, h1, h2]
      · simp [pydictGet, h0, h1, h2, ih]

theorem pydictGet_set_ne {α : Type} (d : PyDict α) (k k' : String) (v : α)
    (h : ¬ k' = k) :
    pydictGet (pydictSet d k v) k' = pydictGet d k' := by
  have hkk : ¬ k = k' := fun hh => h hh.symm
  unfold pydictSet
  by_cases hd : d.any (fun kv => kv.1 = k) = true
  · simp only [hd, if_true]
    exact pydictGet_map_setfn d k k' v hkk
  · simp only [hd, if_false]
    induction d with
    | nil => simp [pydictGet, hkk]
    | cons kv rest ih =>
      obtain ⟨k0, v0⟩ := kv
      by_cases h1 : k0 = k'
      · simp [pydictGet, h1]
      · simp only [List.cons_append, pydictGet, h1, if_false]
        exact ih (by simp_all [List.any_cons])

/-! ### Parameter-resolution lemmas -/

theorem pydictGet_map_pair {α : Type} (f : String → α) (ps : List String)
    (p : String) (hp : p ∈ ps) :
    pydictGet (ps.map (fun q => (q, f q))) p = some (f p) := by
  induction ps with
  | nil => cases hp
  | cons q rest ih =>
    by_cases h : q = p
    · subst h
      simp [pydictGet]
    · rcases List.mem_cons.mp hp with h' | h'
      · exact absurd h'.symm h
      · simp [pydictGet, h, ih h']

theorem overrideFold_get_of_not_mem (ov : String → Option String)
    (ps : List String) (d : Params) (p : String) (hp : p ∉ ps) :
    pydictGet
      (ps.foldl
        (fun d q =>
          match ov q with
          | some v => pydictSet d q (some v)
          | none => d)
        d) p = pydictGet d p := by
  induction ps generalizing d with
  | nil => rfl
  | cons q rest ih =>
    have hq : ¬ p = q := fun hh => hp (hh ▸ List.mem_cons_self q rest)
    have hrest : p ∉ rest := fun hh => hp (List.mem_cons_of_mem q hh)
    rw [List.foldl_cons, ih _ hrest]
    cases hov : ov q with
    | none => rfl
    | some v => exact pydictGet_set_ne d q p (some v) hq

theorem overrideFold_get_of_mem (ov : String → Option String)
    (ps : List String) (d : Params) (p : String) (hp : p ∈ ps) :
    pydictGet
      (ps.foldl
        (fun d q =>
          match ov q with
          | some v => pydictSet d q (some v)
          | none => d)
        d) p =
      (match ov p with
       | some v => some (some v)
       | none => pydictGet d p) := by
  induction ps generalizing d with
  | nil => cases hp
  | cons q rest ih =>
    rw [List.foldl_cons]
    by_cases hrest : p ∈ rest
    · rw [ih _ hrest]
      cases hov : ov p with
      | some v => rfl
      | none =>
        by_cases hq : q = p
        · subst hq
          rw [hov]
        · cases hov' : ov q with
          | none => rfl
          | some w => exact pydictGet_set_ne d q p (some w) (fun hh => hq hh.symm)
    · have hq : q = p := by
        rcases List.mem_cons.mp hp with h' | h'
        · exact h'.symm
        · exact absurd h' hrest
      subst hq
      rw [overrideFold_get_of_not_mem ov rest _ q hrest]
      cases hov : ov q with
      | none => rfl
      | some v => exact pydictGet_set_self d q (some v)

/-! ### Dispatcher lemmas -/

theorem message_group_id_ne_empty (r : Nat) : message_group_id r ≠ "" := by
  intro h
  have hl := congrArg String.length h
  rw [message_group_id, String.length_append] at hl
  have h10 : ("msg-group-" : String).length = 10 := rfl
  have h0 : ("" : String).length = 0 := rfl
  rw [h10, h0] at hl
  omega

theorem sendLoop_none_queue (gid body : String) (uuids : Nat → String)
    (attrs : Attrs) (ns : List Nat) (calls : List SendCall)
    (h : sendLoop none gid body uuids attrs ns = some calls) : calls = [] := by
  cases ns with
  | nil =>
    simp only [sendLoop] at h
    exact (Option.some_inj.mp h).symm
  | cons n rest => simp [sendLoop] at h

/-- The send call made on iteration `n` against queue `q` given the
attributes dict state `attrs` at the start of that iteration. -/
def iterCall (q gid body : String) (uuids : Nat → String) (attrs : Attrs)
    (n : Nat) : SendCall :=
  if pyEndsWith q ".fifo" then
    ⟨q, body, pydictSet attrs "messageNum" ⟨"String", Nat.repr (n + 1)⟩,
      some (uuids n), some gid⟩
  else
    ⟨q, body, pydictSet attrs "messageNum" ⟨"String", Nat.repr (n + 1)⟩,
      none, none⟩

theorem sendLoop_nil (qu : Option String) (gid body : String)
    (uuids : Nat → String) (attrs : Attrs) :
    sendLoop qu gid body uuids attrs [] = some [] := rfl

theorem sendLoop_cons_none (gid body : String) (uuids : Nat → String)
    (attrs : Attrs) (n : Nat) (rest : List Nat) :
    sendLoop none gid body uuids attrs (n :: rest) = none := rfl

theorem sendLoop_cons_some (q gid body : String) (uuids : Nat → String)
    (attrs : Attrs) (n : Nat) (rest : List Nat) :
    sendLoop (some q) gid body uuids attrs (n :: rest) =
      (sendLoop (some q) gid body uuids
          (pydictSet attrs "messageNum" ⟨"String", Nat.repr (n + 1)⟩) rest).map
        (fun cs => iterCall q gid body uuids attrs n :: cs) := by
  show sendLoop (some q) gid body uuids attrs (n :: rest) = _
  rw [sendLoop]
  by_cases hf : pyEndsWith q ".fifo" <;> simp [iterCall, hf]

theorem iterCall_queueUrl (q gid body : String) (uuids : Nat → String)
    (attrs : Attrs) (n : Nat) : (iterCall q gid body uuids attrs n).queueUrl = q := by
  unfold iterCall
  by_cases hf : pyEndsWith q ".fifo" <;> simp [hf]

theorem iterCall_body (q gid body : String) (uuids : Nat → String)
    (attrs : Attrs) (n : Nat) :
    (iterCall q gid body uuids attrs n).messageBody = body := by
  unfold iterCall
  by_cases hf : pyEndsWith q ".fifo" <;> simp [hf]

theorem iterCall_attrs (q gid body : String) (uuids : Nat → String)
    (attrs : Attrs) (n : Nat) :
    (iterCall q gid body uuids attrs n).messageAttributes =
      pydictSet attrs "messageNum" ⟨"String", Nat.repr (n + 1)⟩ := by
  unfold iterCall
  by_cases hf : pyEndsWith q ".fifo" <;> simp [hf]

theorem iterCall_dedup (q gid body : String) (uuids : Nat → String)
    (attrs : Attrs) (n : Nat) :
    (iterCall q gid body uuids attrs n).messageDeduplicationId =
      (if pyEndsWith q ".fifo" then some (uuids n) else none) := by
  unfold iterCall
  by_cases hf : pyEndsWith q ".fifo" <;> simp [hf]

theorem iterCall_gid (q gid body : String) (uuids : Nat → String)
    (attrs : Attrs) (n : Nat) :
    (iterCall q gid body uuids attrs n).messageGroupId =
      (if pyEndsWith q ".fifo" then some gid else none) := by
  unfold iterCall
  by_cases hf : pyEndsWith q ".fifo" <;> simp [hf]

theorem sendLoop_mem_spec (qu : Option String) (gid body : String)
    (uuids : Nat → String) :
    ∀ (ns : List Nat) (attrs : Attrs) (calls : List SendCall),
      sendLoop qu gid body uuids attrs ns = some calls →
      ∀ c ∈ calls,
        qu = some c.queueUrl ∧
        c.messageBody = body ∧
        (∀ k, ¬ k = "messageNum" →
          pydictGet c.messageAttributes k = pydictGet attrs k) ∧
        (if pyEndsWith c.queueUrl ".fifo"
          then (∃ n, c.messageDeduplicationId = some (uuids n)) ∧
            c.messageGroupId = some gid
          else c.messageDeduplicationId = none ∧ c.messageGroupId = none) := by
  intro ns
  induction ns with
  | nil =>
    intro attrs calls h c hc
    rw [sendLoop_nil] at h
    rw [← Option.some_inj.mp h] at hc
    cases hc
  | cons n rest ih =>
    intro attrs calls h c hc
    cases qu with
    | none => rw [sendLoop_cons_none] at h; cases h
    | some q =>
      rw [sendLoop_cons_some] at h
      cases hrec : sendLoop (some q) gid body uuids
          (pydictSet attrs "messageNum" ⟨"String", Nat.repr (n + 1)⟩) rest with
      | none => rw [hrec] at h; cases h
      | some calls' =>
        rw [hrec, Option.map_some'] at h
        rw [← Option.some_inj.mp h] at hc
        rcases List.mem_cons.mp hc with hc0 | hcm
        · rw [hc0]
          refine ⟨by rw [iterCall_queueUrl],
            iterCall_body q gid body uuids attrs n, ?_, ?_⟩
          · intro k hk
            rw [iterCall_attrs]
            exact pydictGet_set_ne attrs "messageNum" k _ hk
          · rw [iterCall_queueUrl]
            by_cases hf : pyEndsWith q ".fifo"
            · simp only [hf, if_true]
              rw [iterCall_dedup, iterCall_gid]
              simp only [hf, if_true]
              exact ⟨⟨n, rfl⟩, trivial⟩
            · simp only [hf, if_false]
              rw [iterCall_dedup, iterCall_gid]
              simp only [hf, if_false]
              exact ⟨rfl, rfl⟩
        · obtain ⟨hq, hb, hframe, hfields⟩ := ih _ _ hrec c hcm
          refine ⟨hq, hb, ?_, hfields⟩
          intro k hk
          rw [hframe k hk]
          exact pydictGet_set_ne attrs "messageNum" k _ hk

theorem sendLoop_some_spec (q gid body : String) (uuids : Nat → String) :
    ∀ (ns : List Nat) (attrs : Attrs),
      ∃ calls,
        sendLoop (some q) gid body uuids attrs ns = some calls ∧
        calls.length = ns.length ∧
        ∀ i n c, ns.get? i = some n → calls.get? i = some c →
          pydictGet c.messageAttributes "messageNum"
            = some ⟨"String", Nat.repr (n + 1)⟩ ∧
          c.messageDeduplicationId
            = (if pyEndsWith q ".fifo" then some (uuids n) else none) := by
  intro ns
  induction ns with
  | nil =>
    intro attrs
    refine ⟨[], rfl, rfl, ?_⟩
    intro i m c hm hc
    simp at hm
  | cons n rest ih =>
    intro attrs
    obtain ⟨calls', h', hlen, hspec⟩ :=
      ih (pydictSet attrs "messageNum" ⟨"String", Nat.repr (n + 1)⟩)
    refine ⟨iterCall q gid body uuids attrs n :: calls', ?_, ?_, ?_⟩
    · rw [sendLoop_cons_some, h', Option.map_some']
    · simp [hlen]
    · intro i m c hm hc
      cases i with
      | zero =>
        simp only [List.get?] at hm hc
        rw [← Option.some_inj.mp hc, Option.some_inj.mp hm]
        rw [iterCall_attrs, iterCall_dedup]
        exact ⟨pydictGet_set_self attrs "messageNum" _, rfl⟩
      | succ i' =>
        exact hspec i' m c (by simpa using hm) (by simpa using hc)

/-! ### Unfolding helper for the dispatcher -/

theorem send_message_to_sqs_def (params : Params) (body : String)
    (attrs : Attrs) (r : Nat) (uuids : Nat → String) :
    send_message_to_sqs params body attrs r uuids =
      match num_of_iterations params with
      | none => none
      | some n =>
        sendLoop (paramsGet params "queue_url") (message_group_id r) body uuids
          attrs (List.range n.toNat) := rfl

/-! ### Concrete fixtures used by witnesses and counterexamples -/

/-- A deterministic stand-in for the stream of `uuid.uuid4()` strings. -/
def u0 : Nat → String := fun n => "uuid-" ++ Nat.repr n

theorem u0_ne_empty (n : Nat) : u0 n ≠ "" := by
  intro h
  have hl := congrArg String.length h
  rw [u0, String.length_append] at hl
  have h5 : ("uuid-" : String).length = 5 := rfl
  have h0 : ("" : String).length = 0 := rfl
  rw [h5, h0] at hl
  omega

/-- Parsed-config fixture: a `DEFAULT` section holding a fifo queue url, a
body path, an attributes path, `fifo_test=true` and `fifo_num_of_messages=3`. -/
def okCfg : String → String → Option String := fun sect k =>
  if sect = "DEFAULT" then
    if k = "queue_url" then some "https://sqs.example/q.fifo"
    else if k = "message_body" then some "body.xml"
    else if k = "message_attributes" then some "attrs.json"
    else if k = "fifo_test" then some "true"
    else if k = "fifo_num_of_messages" then some "3"
    else none
  else none

/-- Attributes fixture: one user attribute. -/
def okAttrs : Attrs := [("origin", ⟨"String", "easy-sqs"⟩)]

/-- Environment fixture for the happy path. -/
def okEnv : Env :=
  { fs := fun p =>
      if p = "conf.properties" then some "conf-text"
      else if p = "body.xml" then some "<hello/>"
      else if p = "attrs.json" then some "attrs-text"
      else none,
    parseProps := fun c => if c = "conf-text" then some okCfg else none,
    parseJson := fun c => if c = "attrs-text" then some okAttrs else none,
    r := 42, uuids := u0 }

/-- Arguments fixture: no command-line overrides. -/
def okArgs : Args :=
  { properties := "conf.properties", properties_section := "DEFAULT",
    overrides := fun _ => none }

/-- The settings record `okEnv`/`okArgs` resolve to. -/
def okParams : Params :=
  [("queue_url", some "https://sqs.example/q.fifo"), ("aws_profile", none),
   ("message_body", some "body.xml"), ("message_attributes", some "attrs.json"),
   ("s3_bucket", none), ("fifo_test", some "true"),
   ("fifo_num_of_messages", some "3")]

/-- The three send calls of the happy-path run. -/
def okCalls : List SendCall :=
  [⟨"https://sqs.example/q.fifo", "<hello/>",
    [("origin", ⟨"String", "easy-sqs"⟩), ("messageNum", ⟨"String", "1"⟩)],
    some "uuid-0", some "msg-group-42"⟩,
   ⟨"https://sqs.example/q.fifo", "<hello/>",
    [("origin", ⟨"String", "easy-sqs"⟩), ("messageNum", ⟨"String", "2"⟩)],
    some "uuid-1", some "msg-group-42"⟩,
   ⟨"https://sqs.example/q.fifo", "<hello/>",
    [("origin", ⟨"String", "easy-sqs"⟩), ("messageNum", ⟨"String", "3"⟩)],
    some "uuid-2", some "msg-group-42"⟩]

/-- The first send call of the happy-path run. -/
def okCall0 : SendCall :=
  ⟨"https://sqs.example/q.fifo", "<hello/>",
    [("origin", ⟨"String", "easy-sqs"⟩), ("messageNum", ⟨"String", "1"⟩)],
    some "uuid-0", some "msg-group-42"⟩

/-- Environment fixture in which no file exists at all. -/
def noFileEnv : Env :=
  { fs := fun _ => none, parseProps := fun _ => none,
    parseJson := fun _ => none, r := 1, uuids := u0 }

/-- Environment fixture in which the properties file resolves but the
message-body file is missing. -/
def noBodyEnv : Env :=
  { fs := fun p => if p = "conf.properties" then some "conf-text" else none,
    parseProps := fun c => if c = "conf-text" then some okCfg else none,
    parseJson := fun _ => none, r := 1, uuids := u0 }

/-! ### Claims C5, C6, C7 -/

/-- Claim C5: if the message-body file is missing, the attributes file is
missing, or the attributes file contains malformed JSON, the process exits
with code 1 and no send call is ever made. -/
theorem c5_load_failures_exit_one (env : Env) (args : Args) (params : Params)
    (bp ap : String)
    (hres : resolvedParams env args = some params)
    (hbp : paramsGet params "message_body" = some bp)
    (hap : paramsGet params "message_attributes" = some ap)
    (hfail : env.fs bp = none ∨ env.fs ap = none ∨
      ∃ content, env.fs ap = some content ∧ env.parseJson content = none) :
    mainRun env args = (1, []) := by
  unfold mainRun
  rw [hres]
  dsimp only
  rw [hbp, hap]
  unfold load_message_body load_message_attributes
  dsimp only
  rcases hfail with h | h | ⟨content, hc, hj⟩
  · rw [h]
  · cases hb : env.fs bp with
    | none => rfl
    | some body =>
      dsimp only
      rw [h]
  · cases hb : env.fs bp with
    | none => rfl
    | some body =>
      dsimp only
      rw [hc]
      dsimp only
      rw [hj]

/-- Claim C5 witness: a run whose body file is missing exits `(1, [])`. -/
theorem c5_witness : mainRun noBodyEnv okArgs = (1, []) :=
  c5_load_failures_exit_one noBodyEnv okArgs okParams "body.xml" "attrs.json"
    rfl rfl rfl (Or.inl rfl)

/-- Claim C6: if the settings (properties) file is missing or unreadable
(the open/read fails), the process exits with code 1 before any message is
sent. -/
theorem c6_missing_properties_exit_one (env : Env) (args : Args)
    (h : env.fs args.properties = none) :
    mainRun env args = (1, []) := by
  unfold mainRun resolvedParams load_parameters_from_properties
  rw [h]
  rfl

/-- Claim C6 witness: with no files present, the run exits `(1, [])`. -/
theorem c6_witness : mainRun noFileEnv okArgs = (1, []) :=
  c6_missing_properties_exit_one noFileEnv okArgs rfl

/-- Claim C7: the message body passed to every send call of a run is exactly
the verbatim text content of the body file. -/
theorem c7_body_verbatim (env : Env) (args : Args) (params : Params)
    (bp s : String) (code : Nat) (calls : List SendCall)
    (hres : resolvedParams env args = some params)
    (hbp : paramsGet params "message_body" = some bp)
    (hs : env.fs bp = some s)
    (hrun : mainRun env args = (code, calls)) :
    ∀ c ∈ calls, c.messageBody = s := by
  unfold mainRun at hrun
  rw [hres] at hrun
  dsimp only at hrun
  rw [hbp] at hrun
  unfold load_message_body at hrun
  dsimp only at hrun
  rw [hs] at hrun
  dsimp only at hrun
  cases ha : load_message_attributes env (paramsGet params "message_attributes") with
  | none =>
    rw [ha] at hrun
    injection hrun with h1 h2
    rw [← h2]
    intro c hc
    cases hc
  | some attrs =>
    rw [ha] at hrun
    dsimp only at hrun
    cases hsend : send_message_to_sqs params s attrs env.r env.uuids with
    | none =>
      rw [hsend] at hrun
      injection hrun with h1 h2
      rw [← h2]
      intro c hc
      cases hc
    | some calls' =>
      rw [hsend] at hrun
      injection hrun with h1 h2
      rw [← h2]
      rw [send_message_to_sqs_def] at hsend
      cases hn : num_of_iterations params with
      | none => rw [hn] at hsend; cases hsend
      | some n =>
        rw [hn] at hsend
        cases hq : paramsGet params "queue_url" with
        | none =>
          rw [hq] at hsend
          rw [sendLoop_none_queue _ _ _ _ _ _ hsend]
          intro c hc
          cases hc
        | some q =>
          rw [hq] at hsend
          intro c hc
          exact (sendLoop_mem_spec (some q) _ _ _ _ _ _ hsend c hc).2.1

/-- Claim C7 witness: the first happy-path send call carries the verbatim
body file content. -/
theorem c7_witness : okCall0.messageBody = "<hello/>" :=
  c7_body_verbatim okEnv okArgs okParams "body.xml" "<hello/>" 0 okCalls
    (by decide) rfl rfl (by decide) okCall0 (by decide)

/-! ### Claim C2 -/

/-- Claim C2: for every recognized settings key, the resolved settings
record's value is the command-line value when an override was supplied, and
otherwise the file-sourced value — which is Python `None` (unset) when the
key is absent from both the file section and the command line. -/
theorem c2_parameter_resolution (env : Env) (args : Args) (p : String)
    (hp : p ∈ list_of_params) (content : String)
    (cfg : String → String → Option String)
    (hfs : env.fs args.properties = some content)
    (hcfg : env.parseProps content = some cfg) :
    ∃ params, resolvedParams env args = some params ∧
      pydictGet params p =
        some (match args.overrides p with
              | some v => some v
              | none => cfg args.properties_section p) := by
  refine ⟨override_parameters_with_args
      (list_of_params.map (fun q => (q, cfg args.properties_section q)))
      args.overrides, ?_, ?_⟩
  · unfold resolvedParams load_parameters_from_properties
    rw [hfs]
    dsimp only
    rw [hcfg]
    rfl
  · unfold override_parameters_with_args
    rw [overrideFold_get_of_mem args.overrides list_of_params _ p hp]
    cases hov : args.overrides p with
    | some v => rfl
    | none =>
      rw [pydictGet_map_pair (fun q => cfg args.properties_section q)
        list_of_params p hp]

/-- Args fixture with a command-line override for the queue url. -/
def ovArgs : Args :=
  { properties := "conf.properties", properties_section := "DEFAULT",
    overrides := fun k => if k = "queue_url" then some "https://alt.example/q" else none }

/-- Claim C2 witness: with an override for `queue_url`, the resolved value is
the command-line value. -/
theorem c2_witness :
    ∃ params, resolvedParams okEnv ovArgs = some params ∧
      pydictGet params "queue_url" =
        some (match ovArgs.overrides "queue_url" with
              | some v => some v
              | none => okCfg ovArgs.properties_section "queue_url") :=
  c2_parameter_resolution okEnv ovArgs "queue_url" (by decide) "conf-text"
    okCfg rfl rfl

/-! ### Claim C4 -/

/-- Claim C4: every send call against a queue identifier ending in `".fifo"`
carries a non-empty deduplication token and a non-empty group identifier;
every send call against any other queue identifier carries neither. -/
theorem c4_fifo_fields (params : Params) (body : String) (attrs : Attrs)
    (r : Nat) (uuids : Nat → String) (q : String) (calls : List SendCall)
    (hq : paramsGet params "queue_url" = some q)
    (hu : ∀ n, uuids n ≠ "")
    (h : send_message_to_sqs params body attrs r uuids = some calls) :
    ∀ c ∈ calls,
      c.queueUrl = q ∧
      (pyEndsWith q ".fifo" = true →
        ∃ t g, c.messageDeduplicationId = some t ∧ t ≠ "" ∧
          c.messageGroupId = some g ∧ g ≠ "") ∧
      (pyEndsWith q ".fifo" = false →
        c.messageDeduplicationId = none ∧ c.messageGroupId = none) := by
  rw [send_message_to_sqs_def] at h
  cases hn : num_of_iterations params with
  | none => rw [hn] at h; cases h
  | some n =>
    rw [hn, hq] at h
    intro c hc
    obtain ⟨hqu, hb, hframe, hfields⟩ :=
      sendLoop_mem_spec (some q) _ _ _ _ _ _ h c hc
    have hcq : c.queueUrl = q := (Option.some_inj.mp hqu).symm
    rw [hcq] at hfields
    refine ⟨hcq, ?_, ?_⟩
    · intro hfifo
      rw [hfifo] at hfields
      simp only [if_true] at hfields
      obtain ⟨⟨m, hded⟩, hgid⟩ := hfields
      exact ⟨uuids m, message_group_id r, hded, hu m, hgid,
        message_group_id_ne_empty r⟩
    · intro hfifo
      rw [hfifo] at hfields
      simp only [Bool.false_eq_true, if_false] at hfields
      exact hfields

/-- Claim C4 witness: the first happy-path fifo call carries both fields,
non-empty. -/
theorem c4_witness :
    okCall0.queueUrl = "https://sqs.example/q.fifo" ∧
    (pyEndsWith "https://sqs.example/q.fifo" ".fifo" = true →
      ∃ t g, okCall0.messageDeduplicationId = some t ∧ t ≠ "" ∧
        okCall0.messageGroupId = some g ∧ g ≠ "") ∧
    (pyEndsWith "https://sqs.example/q.fifo" ".fifo" = false →
      okCall0.messageDeduplicationId = none ∧ okCall0.messageGroupId = none) :=
  c4_fifo_fields okParams "<hello/>" okAttrs 42 u0 "https://sqs.example/q.fifo"
    okCalls rfl u0_ne_empty (by decide) okCall0 (by decide)

/-! ### Claim C8 -/

/-- Claim C8: the group identifier is generated once per run, so every send
call of the run that includes a group identifier carries the same value,
namely `message_group_id r`. -/
theorem c8_group_id_shared (params : Params) (body : String) (attrs : Attrs)
    (r : Nat) (uuids : Nat → String) (calls : List SendCall)
    (h : send_message_to_sqs params body attrs r uuids = some calls) :
    (∀ c ∈ calls, c.messageGroupId = none ∨
      c.messageGroupId = some (message_group_id r)) ∧
    (∀ c1 ∈ calls, ∀ c2 ∈ calls, c1.messageGroupId ≠ none →
      c2.messageGroupId ≠ none → c1.messageGroupId = c2.messageGroupId) := by
  rw [send_message_to_sqs_def] at h
  cases hn : num_of_iterations params with
  | none => rw [hn] at h; cases h
  | some n =>
    rw [hn] at h
    have hone : ∀ c ∈ calls, c.messageGroupId = none ∨
        c.messageGroupId = some (message_group_id r) := by
      cases hq : paramsGet params "queue_url" with
      | none =>
        rw [hq] at h
        rw [sendLoop_none_queue _ _ _ _ _ _ h]
        intro c hc
        cases hc
      | some q =>
        rw [hq] at h
        intro c hc
        have hfields := (sendLoop_mem_spec (some q) _ _ _ _ _ _ h c hc).2.2.2
        cases hfifo : pyEndsWith c.queueUrl ".fifo" with
        | true =>
          rw [hfifo] at hfields
          simp only [if_true] at hfields
          exact Or.inr hfields.2
        | false =>
          rw [hfifo] at hfields
          simp only [Bool.false_eq_true, if_false] at hfields
          exact Or.inl hfields.2
    refine ⟨hone, ?_⟩
    intro c1 hc1 c2 hc2 hn1 hn2
    rcases hone c1 hc1 with h1 | h1
    · exact absurd h1 hn1
    · rcases hone c2 hc2 with h2 | h2
      · exact absurd h2 hn2
      · rw [h1, h2]

/-- Claim C8 witness: the three happy-path calls all carry
`message_group_id 42`. -/
theorem c8_witness :
    (∀ c ∈ okCalls, c.messageGroupId = none ∨
      c.messageGroupId = some (message_group_id 42)) ∧
    (∀ c1 ∈ okCalls, ∀ c2 ∈ okCalls, c1.messageGroupId ≠ none →
      c2.messageGroupId ≠ none → c1.messageGroupId = c2.messageGroupId) :=
  c8_group_id_shared okParams "<hello/>" okAttrs 42 u0 okCalls (by decide)

/-! ### Claim C9 -/

/-- Claim C9: the dispatcher's in-place mutation of the attributes dict
touches only the reserved `"messageNum"` key: every other entry is passed to
every send call exactly as loaded. -/
theorem c9_attrs_frame (params : Params) (body : String) (attrs : Attrs)
    (r : Nat) (uuids : Nat → String) (calls : List SendCall)
    (h : send_message_to_sqs params body attrs r uuids = some calls) :
    ∀ c ∈ calls, ∀ k, ¬ k = "messageNum" →
      pydictGet c.messageAttributes k = pydictGet attrs k := by
  rw [send_message_to_sqs_def] at h
  cases hn : num_of_iterations params with
  | none => rw [hn] at h; cases h
  | some n =>
    rw [hn] at h
    cases hq : paramsGet params "queue_url" with
    | none =>
      rw [hq] at h
      rw [sendLoop_none_queue _ _ _ _ _ _ h]
      intro c hc
      cases hc
    | some q =>
      rw [hq] at h
      intro c hc
      exact (sendLoop_mem_spec (some q) _ _ _ _ _ _ h c hc).2.2.1

/-- Claim C9 witness: in the happy-path run the `"origin"` attribute reaches
the first call unchanged. -/
theorem c9_witness :
    pydictGet okCall0.messageAttributes "origin" = pydictGet okAttrs "origin" :=
  c9_attrs_frame okParams "<hello/>" okAttrs 42 u0 okCalls (by decide)
    okCall0 (by decide) "origin" (by decide)

/-! ### Claim C10 -/

/-- The set of group identifiers `random.randint(1, 100)` can give rise to. -/
def possibleGroupIds : Finset String := (Finset.Icc 1 100).image message_group_id

set_option maxRecDepth 40000 in
/-- Claim C10: the generated group identifier is `"msg-group-"` followed by
the decimal representation of an integer between 1 and 100 (the inclusive
range of `random.randint(1, 100)`), so only the 100 identifiers in
`possibleGroupIds` can occur. -/
theorem c10_group_id_range (r : Nat) (h1 : 1 ≤ r) (h2 : r ≤ 100) :
    (∃ k, 1 ≤ k ∧ k ≤ 100 ∧ message_group_id r = "msg-group-" ++ Nat.repr k) ∧
    message_group_id r ∈ possibleGroupIds ∧
    possibleGroupIds.card = 100 := by
  refine ⟨⟨r, h1, h2, rfl⟩, ?_, ?_⟩
  · exact Finset.mem_image_of_mem _ (Finset.mem_Icc.mpr ⟨h1, h2⟩)
  · decide

/-- Claim C10 witness: the happy-path draw 42 lies in the 100-element set. -/
theorem c10_witness :
    (∃ k, 1 ≤ k ∧ k ≤ 100 ∧ message_group_id 42 = "msg-group-" ++ Nat.repr k) ∧
    message_group_id 42 ∈ possibleGroupIds ∧
    possibleGroupIds.card = 100 :=
  c10_group_id_range 42 (by decide) (by decide)

/-! ### Claim C1 -/

/-- The settings record the resolver produces when the file section sets
`queue_url` and `fifo_test=true` but no `fifo_num_of_messages`: the count key
is present with Python `None`. -/
def c1Params : Params :=
  [("queue_url", some "https://sqs.example/q.fifo"), ("aws_profile", none),
   ("message_body", none), ("message_attributes", none), ("s3_bucket", none),
   ("fifo_test", some "true"), ("fifo_num_of_messages", none)]

/-- As `c1Params`, but with a count string that does not parse as an
integer. -/
def c1BadParams : Params :=
  [("queue_url", some "https://sqs.example/q.fifo"), ("aws_profile", none),
   ("message_body", none), ("message_attributes", none), ("s3_bucket", none),
   ("fifo_test", some "true"), ("fifo_num_of_messages", some "ten")]

/-- Claim C1 counterexample: with the ordered-delivery flag `"true"` and the
count absent from file and command line (stored Python `None`), or an
unparsable count string, the dispatcher raises (`int(None)` is a `TypeError`,
`int("ten")` a `ValueError`) and performs zero sends — it does not fall back
to an iteration count of 1 with one send, as the claim states. -/
theorem c1_counterexample :
    send_message_to_sqs c1Params "body" [] 1 u0 = none ∧
    send_message_to_sqs c1BadParams "body" [] 1 u0 = none := by
  exact ⟨by decide, by decide⟩

/-- Claim C1 (amended): when the flag is `"true"` and the resolved count is
Python `None` (absent from both sources) or an unparsable string, the `int`
conversion raises, the dispatcher makes no send call, and the process exits
with code 1; the `params.get` default of 1 is reachable only when the count
key is missing from the dict entirely, which the resolver never produces. -/
theorem c1_amended_count_failure (env : Env) (args : Args) (params : Params)
    (hres : resolvedParams env args = some params)
    (hflag : paramsGet params "fifo_test" = some "true")
    (hcnt : pydictGet params "fifo_num_of_messages" = some none ∨
      ∃ s, pydictGet params "fifo_num_of_messages" = some (some s) ∧
        pythonInt s = none) :
    mainRun env args = (1, []) ∧
    ∀ body attrs r uuids,
      send_message_to_sqs params body attrs r uuids = none := by
  have hnum : num_of_iterations params = none := by
    unfold num_of_iterations
    rcases hcnt with hcnt | ⟨s, hs, hps⟩
    · simp [hflag, hcnt]
    · simp [hflag, hs, hps]
  have hsend : ∀ body attrs r uuids,
      send_message_to_sqs params body attrs r uuids = none := by
    intro body attrs r uuids
    rw [send_message_to_sqs_def, hnum]
  refine ⟨?_, hsend⟩
  unfold mainRun
  rw [hres]
  dsimp only
  cases hb : load_message_body env (paramsGet params "message_body") with
  | none => rfl
  | some body =>
    dsimp only
    cases ha : load_message_attributes env
        (paramsGet params "message_attributes") with
    | none => rfl
    | some attrs =>
      dsimp only
      rw [hsend body attrs env.r env.uuids]

/-- Parsed-config fixture for C1: `queue_url` and `fifo_test=true` set, no
count. -/
def c1Cfg : String → String → Option String := fun sect k =>
  if sect = "DEFAULT" then
    if k = "queue_url" then some "https://sqs.example/q.fifo"
    else if k = "fifo_test" then some "true"
    else none
  else none

/-- Environment fixture for C1. -/
def c1Env : Env :=
  { fs := fun p => if p = "conf.properties" then some "conf-text" else none,
    parseProps := fun c => if c = "conf-text" then some c1Cfg else none,
    parseJson := fun _ => none, r := 1, uuids := u0 }

/-- Claim C1 (amended) witness: a run resolving to `c1Params` exits `(1, [])`
and its dispatcher raises on every input. -/
theorem c1_amended_witness :
    mainRun c1Env okArgs = (1, []) ∧
    ∀ body attrs r uuids,
      send_message_to_sqs c1Params body attrs r uuids = none :=
  c1_amended_count_failure c1Env okArgs c1Params (by decide) rfl (Or.inl rfl)

/-! ### Claim C3 -/

/-- Settings record whose count string parses to the negative integer -1. -/
def c3Params : Params :=
  [("queue_url", some "https://sqs.example/q.fifo"), ("aws_profile", none),
   ("message_body", none), ("message_attributes", none), ("s3_bucket", none),
   ("fifo_test", some "true"), ("fifo_num_of_messages", some "-1")]

/-- Claim C3 counterexample: `int("-1")` parses to the integer N = -1, yet
the run performs zero send calls (`range(0, -1)` is empty), not "exactly N"
— the claim fails for negative N. -/
theorem c3_counterexample :
    pythonInt "-1" = some (-1) ∧
    send_message_to_sqs c3Params "body" [] 1 u0 = some [] := by
  exact ⟨by decide, by decide⟩

/-- Claim C3 (amended): for a resolved record whose queue identifier is
present, flag `"true"` and count parsing to N, the dispatcher performs
exactly `max 0 N` send calls (N when N ≥ 0): the i-th call's `messageNum`
attribute is the 1-based position i, and on a fifo queue the deduplication
tokens are pairwise distinct whenever the uuid draws are; with any other
flag value exactly one send call occurs. -/
theorem c3_amended_send_count (params : Params) (body : String) (attrs : Attrs)
    (r : Nat) (uuids : Nat → String) (q : String)
    (hq : paramsGet params "queue_url" = some q) :
    (∀ s N, paramsGet params "fifo_test" = some "true" →
      pydictGet params "fifo_num_of_messages" = some (some s) →
      pythonInt s = some N →
      (∀ i, i < N.toNat → ∀ j, j < N.toNat → uuids i = uuids j → i = j) →
      ∃ calls, send_message_to_sqs params body attrs r uuids = some calls ∧
        calls.length = N.toNat ∧
        (∀ i c, calls.get? i = some c →
          pydictGet c.messageAttributes "messageNum" =
            some ⟨"String", Nat.repr (i + 1)⟩) ∧
        (pyEndsWith q ".fifo" = true →
          ∀ i j ci cj, calls.get? i = some ci → calls.get? j = some cj →
            i ≠ j → ci.messageDeduplicationId ≠ cj.messageDeduplicationId)) ∧
    (paramsGet params "fifo_test" ≠ some "true" →
      ∃ calls, send_message_to_sqs params body attrs r uuids = some calls ∧
        calls.length = 1) := by
  constructor
  · intro s N hflag hcnt hN huuid
    have hnum : num_of_iterations params = some N := by
      unfold num_of_iterations
      simp [hflag, hcnt, hN]
    obtain ⟨calls, hloop, hlen, hspec⟩ :=
      sendLoop_some_spec q (message_group_id r) body uuids
        (List.range N.toNat) attrs
    refine ⟨calls, ?_, ?_, ?_, ?_⟩
    · rw [send_message_to_sqs_def, hnum, hq]
      exact hloop
    · rw [hlen, List.length_range]
    · intro i c hc
      obtain ⟨hi, -⟩ := List.get?_eq_some.mp hc
      rw [hlen, List.length_range] at hi
      exact (hspec i i c ((List.get?_eq_getElem? ..).trans (List.getElem?_range hi)) hc).1
    · intro hfifo i j ci cj hci hcj hij
      obtain ⟨hi, -⟩ := List.get?_eq_some.mp hci
      obtain ⟨hj, -⟩ := List.get?_eq_some.mp hcj
      rw [hlen, List.length_range] at hi hj
      have hdi := (hspec i i ci ((List.get?_eq_getElem? ..).trans (List.getElem?_range hi)) hci).2
      have hdj := (hspec j j cj ((List.get?_eq_getElem? ..).trans (List.getElem?_range hj)) hcj).2
      rw [hfifo] at hdi hdj
      simp only [if_true] at hdi hdj
      rw [hdi, hdj]
      intro heq
      exact hij (huuid i hi j hj (Option.some_inj.mp heq))
  · intro hflag
    have hnum : num_of_iterations params = some 1 := by
      unfold num_of_iterations
      rw [if_neg hflag]
    obtain ⟨calls, hloop, hlen, -⟩ :=
      sendLoop_some_spec q (message_group_id r) body uuids
        (List.range (1 : Int).toNat) attrs
    refine ⟨calls, ?_, ?_⟩
    · rw [send_message_to_sqs_def, hnum, hq]
      exact hloop
    · rw [hlen, List.length_range]
      rfl

/-- Claim C3 (amended) witness: the happy-path record (count `"3"`, fifo
queue) yields exactly 3 calls with `messageNum` 1..3 and pairwise-distinct
deduplication tokens. -/
theorem c3_amended_witness :
    ∃ calls, send_message_to_sqs okParams "<hello/>" okAttrs 42 u0 = some calls ∧
      calls.length = (3 : Int).toNat ∧
      (∀ i c, calls.get? i = some c →
        pydictGet c.messageAttributes "messageNum" =
          some ⟨"String", Nat.repr (i + 1)⟩) ∧
      (pyEndsWith "https://sqs.example/q.fifo" ".fifo" = true →
        ∀ i j ci cj, calls.get? i = some ci → calls.get? j = some cj →
          i ≠ j → ci.messageDeduplicationId ≠ cj.messageDeduplicationId) :=
  (c3_amended_send_count okParams "<hello/>" okAttrs 42 u0
      "https://sqs.example/q.fifo" rfl).1 "3" 3 rfl rfl (by decide) (by decide)

end EasySQS
